import Mathlib

/-!
Verification of the GTK/WebKit2 backend of the pywebview library
(`webview/platforms/gtk.py`): the window/session lifecycle state machine,
the JS bridge protocol over the document-title side channel, the
synchronous `evaluate_js` protocol, the command router, and the file
dialog result marshalling.

Python values, the `json.loads` decoder, and the dynamic semantics of the
Python operations the source relies on (`in` membership, subscription,
`str()`) are embedded shallowly; the stateful parts of `BrowserView` are
embedded as explicit state-passing functions over a `BVState` record.
-/

namespace PywebviewGtk

/-- Python runtime values as produced by `json.loads` and manipulated by
the bridge code: `None`, booleans, ints, floats (kept as their source
lexeme, since the code never does float arithmetic), strings, lists and
string-keyed dicts. -/
inductive PyVal where
  | pynone : PyVal
  | pybool : Bool → PyVal
  | pyint : Int → PyVal
  | pyfloat : String → PyVal
  | pystr : String → PyVal
  | pylist : List PyVal → PyVal
  | pydict : List (String × PyVal) → PyVal

/-- Python exceptions that the embedded code paths can raise. -/
inductive PyErr where
  | typeError : PyErr
  | keyError : PyErr
  | valueError : PyErr
  | nameError : String → PyErr
deriving DecidableEq

/-- Skip JSON whitespace (space, tab, newline, carriage return). -/
def skipWs : List Char → List Char
  | c :: rest => if c = ' ' ∨ c = '\t' ∨ c = '\n' ∨ c = '\r' then skipWs rest else c :: rest
  | [] => []

/-- Decode four hex digits; `none` if any is not a hex digit. -/
def hex4 (a b c d : Char) : Option Nat :=
  let hd : Char → Option Nat := fun ch =>
    if '0' ≤ ch ∧ ch ≤ '9' then some (ch.toNat - '0'.toNat)
    else if 'a' ≤ ch ∧ ch ≤ 'f' then some (ch.toNat - 'a'.toNat + 10)
    else if 'A' ≤ ch ∧ ch ≤ 'F' then some (ch.toNat - 'A'.toNat + 10)
    else none
  match hd a, hd b, hd c, hd d with
  | some x, some y, some z, some w => some (((x * 16 + y) * 16 + z) * 16 + w)
  | _, _, _, _ => none

/-- Parse the body of a JSON string literal (after the opening quote),
returning the decoded characters and the rest of the input after the
closing quote.  Unescaped control characters are rejected, as in Python's
strict `json.loads`. -/
def parseJsonString : List Char → Option (List Char × List Char)
  | [] => none
  | c :: rest =>
    if c = '"' then some ([], rest)
    else if c = '\\' then
      match rest with
      | [] => none
      | e :: rest2 =>
        if e = 'u' then
          match rest2 with
          | a :: b :: cc :: d :: rest3 =>
            match hex4 a b cc d with
            | some n =>
              match parseJsonString rest3 with
              | some (s, r) => some (Char.ofNat n :: s, r)
              | none => none
            | none => none
          | _ => none
        else
          let dec : Option Char :=
            if e = '"' then some '"'
            else if e = '\\' then some '\\'
            else if e = '/' then some '/'
            else if e = 'b' then some (Char.ofNat 8)
            else if e = 'f' then some (Char.ofNat 12)
            else if e = 'n' then some '\n'
            else if e = 'r' then some '\r'
            else if e = 't' then some '\t'
            else none
          match dec with
          | some ch =>
            match parseJsonString rest2 with
            | some (s, r) => some (ch :: s, r)
            | none => none
          | none => none
    else if c.toNat < 32 then none
    else
      match parseJsonString rest with
      | some (s, r) => some (c :: s, r)
      | none => none

/-- Take a maximal run of decimal digits. -/
def takeDigits : List Char → List Char × List Char
  | c :: rest =>
    if '0' ≤ c ∧ c ≤ '9' then
      let (ds, r) := takeDigits rest
      (c :: ds, r)
    else ([], c :: rest)
  | [] => ([], [])

/-- Value of a list of decimal digits. -/
def digitsToNat (ds : List Char) : Nat :=
  ds.foldl (fun acc c => acc * 10 + (c.toNat - '0'.toNat)) 0

/-- Parse a JSON number (after an optional leading minus has been noted),
following Python's strict grammar: `0` or a nonzero-led digit run, then
an optional fraction and exponent.  Returns the Python value (an int when
there is no fraction/exponent, a float lexeme otherwise) and the rest. -/
def parseJsonNumber (neg : Bool) (cs : List Char) : Option (PyVal × List Char) :=
  match takeDigits cs with
  | ([], _) => none
  | (ds, rest) =>
    if ds.length > 1 ∧ ds.headI = '0' then none
    else
      let intPart : Int := if neg then -(digitsToNat ds : Int) else (digitsToNat ds : Int)
      let lexInt : List Char := (if neg then ['-'] else []) ++ ds
      match rest with
      | '.' :: r2 =>
        match takeDigits r2 with
        | ([], _) => none
        | (fs, r3) =>
          match r3 with
          | e :: r4 =>
            if e = 'e' ∨ e = 'E' then
              match r4 with
              | sgn :: r5 =>
                let (expDs, r6) := if sgn = '+' ∨ sgn = '-' then takeDigits r5 else takeDigits (sgn :: r5)
                if expDs = [] then none
                else some (.pyfloat (String.mk (lexInt ++ '.' :: fs ++ e :: (if sgn = '+' ∨ sgn = '-' then [sgn] else []) ++ expDs)), r6)
              | [] => none
            else some (.pyfloat (String.mk (lexInt ++ '.' :: fs)), e :: r4)
          | [] => some (.pyfloat (String.mk (lexInt ++ '.' :: fs)), [])
      | e :: r4 =>
        if e = 'e' ∨ e = 'E' then
          match r4 with
          | sgn :: r5 =>
            let (expDs, r6) := if sgn = '+' ∨ sgn = '-' then takeDigits r5 else takeDigits (sgn :: r5)
            if expDs = [] then none
            else some (.pyfloat (String.mk (lexInt ++ e :: (if sgn = '+' ∨ sgn = '-' then [sgn] else []) ++ expDs)), r6)
          | [] => none
        else some (.pyint intPart, e :: r4)
      | [] => some (.pyint intPart, [])

/-- Insert a key/value pair into an association list with Python dict
semantics: a repeated key overwrites the earlier binding. -/
def dictInsert (k : String) (v : PyVal) : List (String × PyVal) → List (String × PyVal)
  | [] => [(k, v)]
  | (k0, v0) :: rest => if k0 = k then (k0, v) :: rest else (k0, v0) :: dictInsert k v rest

/-- Python dict lookup returning `none` when the key is absent. -/
def dictLookup (k : String) : List (String × PyVal) → Option PyVal
  | [] => none
  | (k0, v0) :: rest => if k0 = k then some v0 else dictLookup k rest

mutual

/-- Parse one JSON value; `fuel` bounds the nesting depth. -/
def parseVal : Nat → List Char → Option (PyVal × List Char)
  | 0, _ => none
  | _ + 1, [] => none
  | fuel + 1, c :: rest =>
    if c = 'n' then
      match rest with
      | 'u' :: 'l' :: 'l' :: r => some (.pynone, r)
      | _ => none
    else if c = 't' then
      match rest with
      | 'r' :: 'u' :: 'e' :: r => some (.pybool true, r)
      | _ => none
    else if c = 'f' then
      match rest with
      | 'a' :: 'l' :: 's' :: 'e' :: r => some (.pybool false, r)
      | _ => none
    else if c = 'N' then
      match rest with
      | 'a' :: 'N' :: r => some (.pyfloat "nan", r)
      | _ => none
    else if c = 'I' then
      match rest with
      | 'n' :: 'f' :: 'i' :: 'n' :: 'i' :: 't' :: 'y' :: r => some (.pyfloat "inf", r)
      | _ => none
    else if c = '"' then
      match parseJsonString rest with
      | some (s, r) => some (.pystr (String.mk s), r)
      | none => none
    else if c = '-' then
      match rest with
      | 'I' :: 'n' :: 'f' :: 'i' :: 'n' :: 'i' :: 't' :: 'y' :: r => some (.pyfloat "-inf", r)
      | _ => parseJsonNumber true rest
    else if '0' ≤ c ∧ c ≤ '9' then
      parseJsonNumber false (c :: rest)
    else if c = '[' then
      match skipWs rest with
      | ']' :: r => some (.pylist [], r)
      | r2 =>
        match parseElems fuel r2 with
        | some (xs, r3) => some (.pylist xs, r3)
        | none => none
    else if c = '\x7b' then
      match skipWs rest with
      | '\x7d' :: r => some (.pydict [], r)
      | r2 =>
        match parseMembers fuel r2 with
        | some (kvs, r3) => some (.pydict (kvs.foldl (fun d kv => dictInsert kv.1 kv.2 d) []), r3)
        | none => none
    else none

/-- Parse a nonempty comma-separated list of array elements and the
closing bracket. -/
def parseElems : Nat → List Char → Option (List PyVal × List Char)
  | 0, _ => none
  | fuel + 1, cs =>
    match parseVal fuel cs with
    | none => none
    | some (v, r) =>
      match skipWs r with
      | ',' :: r2 =>
        match parseElems fuel (skipWs r2) with
        | some (xs, r3) => some (v :: xs, r3)
        | none => none
      | ']' :: r2 => some ([v], r2)
      | _ => none

/-- Parse a nonempty comma-separated list of object members (in source
order) and the closing brace; the caller folds them into a dict, so a
later duplicate key overwrites the earlier value as in Python. -/
def parseMembers : Nat → List Char → Option (List (String × PyVal) × List Char)
  | 0, _ => none
  | fuel + 1, cs =>
    match cs with
    | '"' :: r =>
      match parseJsonString r with
      | none => none
      | some (kcs, r2) =>
        match skipWs r2 with
        | ':' :: r3 =>
          match parseVal fuel (skipWs r3) with
          | none => none
          | some (v, r4) =>
            match skipWs r4 with
            | ',' :: r5 =>
              match parseMembers fuel (skipWs r5) with
              | some (kvs, r6) => some ((String.mk kcs, v) :: kvs, r6)
              | none => none
            | '\x7d' :: r5 => some ([(String.mk kcs, v)], r5)
            | _ => none
        | _ => none
    | _ => none

end

/-- Embedding of Python's `json.loads` on the title strings this module
decodes: parse one JSON document, allowing surrounding whitespace and
rejecting trailing garbage; `none` models a raised
`json.JSONDecodeError` (a `ValueError`). -/
def json_loads (s : String) : Option PyVal :=
  match parseVal (s.length + 1) (skipWs s.toList) with
  | some (v, rest) => if skipWs rest = [] then some v else none
  | none => none

/-- Substring test on character lists (used to model Python's `in` on
strings). -/
def subOf (needle hay : List Char) : Bool :=
  hay.tails.any (fun t => needle.isPrefixOf t)

/-- Python `==` between a value and a string literal: only equal strings
compare equal; values of other types compare unequal (no exception). -/
def pyEqStr (v : PyVal) (s : String) : Bool :=
  match v with
  | .pystr t => t = s
  | _ => false

/-- Python membership `key in v` for a string key: key lookup on dicts,
substring test on strings, element equality on lists; a `TypeError` on
`None`, booleans and numbers, which are not containers. -/
def pyContains (key : String) (v : PyVal) : Except PyErr Bool :=
  match v with
  | .pydict kvs => .ok (kvs.any (fun kv => kv.1 = key))
  | .pystr s => .ok (subOf key.toList s.toList)
  | .pylist xs => .ok (xs.any (fun x => pyEqStr x key))
  | _ => .error .typeError

/-- Python subscription `v[key]` for a string key: dict lookup raising
`KeyError` when absent; every other type raises `TypeError` (string and
list indices must be integers; the rest are not subscriptable). -/
def pyGetItem (v : PyVal) (key : String) : Except PyErr PyVal :=
  match v with
  | .pydict kvs =>
    match dictLookup key kvs with
    | some x => .ok x
    | none => .error .keyError
  | _ => .error .typeError

/-- The primitive native return values the bridge round-trip concerns:
strings, numbers, booleans and `None`. -/
inductive PrimVal where
  | pstr : String → PrimVal
  | pint : Int → PrimVal
  | pbool : Bool → PrimVal
  | pnone : PrimVal
deriving DecidableEq

/-- Python's `str()` on the primitive return values: identity on strings,
decimal rendering on ints, `True`/`False` on booleans, `None` on `None`. -/
def pyStrPrim : PrimVal → String
  | .pstr s => s
  | .pint i => toString i
  | .pbool b => if b then "True" else "False"
  | .pnone => "None"

/-- Escape one character for re-injection inside a double-quoted script
string literal. -/
def escChar (c : Char) : List Char :=
  if c = '\\' then ['\\', '\\']
  else if c = '"' then ['\\', '"']
  else if c = '\n' then ['\\', 'n']
  else [c]

/-- Modelled from the spec: the `escape_string` utility imported from the
`webview` package (not part of this file's source) — "script-literal
escaping", making a Python string survive re-injection as a double-quoted
script literal by escaping backslashes, double quotes and newlines. -/
def escape_string (s : String) : String :=
  String.mk ((s.toList.map escChar).flatten)

/-- Evaluation of a double-quoted script string literal body by the
script engine: each backslash escape denotes the escaped character, so
this inverts `escape_string`. -/
def jsLiteralEval (s : String) : String :=
  String.mk (unescChars s.toList)
where
  unescChars : List Char → List Char
    | '\\' :: c :: rest => (if c = 'n' then '\n' else c) :: unescChars rest
    | c :: rest => c :: unescChars rest
    | [] => []

/-- What the script context observes as the value of
`pywebview._bridge.return_val` after the native side injects
`pywebview._bridge.return_val = "<escape_string (str return_val)>";`:
the string-literal evaluation of the escaped `str()` rendering. -/
def channelValue (v : PrimVal) : String :=
  jsLiteralEval (escape_string (pyStrPrim v))

/-- One in-flight synchronous JS evaluation
(`self.js_results[unique_id]`): a counting semaphore (its permit count)
and the result slot, initialised to Python `None`. -/
structure JSEntry where
  semaphore : Nat
  result : PyVal

/-- A callback sitting on the GTK main loop: the `_evaluate_js` idle
callback submitting a script to the renderer, a pending
`run_javascript` completion callback delivering a stringified result (or
`None` for a valueless completion) for a given call id, or any other
queued event. -/
inductive UIOp where
  | runScript : String → String → UIOp
  | jsCallback : String → PyVal → UIOp
  | otherOp : UIOp

/-- The state of one `BrowserView` together with the module-level tables
it touches: the in-flight JS evaluation table, the four lifecycle
signals of its window, the class-level live-instance table
(`BrowserView.instances`, as the list of live uids), the global `windows`
list (as uids), the GTK main-loop nesting level (`gtk.main_level()`, `0`
iff the loop has terminated), the pending idle-callback queue, and a
counter from which fresh uuid hex strings are drawn. -/
structure BVState where
  uid : String
  confirmClose : Bool
  jsResults : List (String × JSEntry)
  loadedSet : Bool
  shownSet : Bool
  closingSet : Bool
  closedSet : Bool
  nativeDestroyed : Bool
  instances : List String
  windowsList : List String
  mainLevel : Nat
  uiQueue : List UIOp
  uuidCounter : Nat
  bridgeCalls : List (PyVal × PyVal × PyVal)
  scriptsRun : List String

/-- Lookup in the `js_results` table. -/
def lookupEntry (id : String) : List (String × JSEntry) → Option JSEntry
  | [] => none
  | (k, e) :: rest => if k = id then some e else lookupEntry id rest

/-- Overwrite the entry for a key already in the `js_results` table. -/
def setEntry (id : String) (e : JSEntry) : List (String × JSEntry) → List (String × JSEntry)
  | [] => []
  | (k, e0) :: rest => if k = id then (k, e) :: rest else (k, e0) :: setEntry id e rest

/-- `del js_results[id]`: remove the entry for a key. -/
def eraseEntry (id : String) : List (String × JSEntry) → List (String × JSEntry)
  | [] => []
  | (k, e0) :: rest => if k = id then rest else (k, e0) :: eraseEntry id rest

/-- Effect of draining one queued main-loop callback: submitting a script
to the renderer mutates no bridge state, a `run_javascript` completion
callback stores its value in the matching table entry and releases that
entry's semaphore (an exception inside a GTK callback is swallowed by the
loop, so a missing entry is a no-op), and unrelated events change
nothing. -/
def applyUIOp (s : BVState) (op : UIOp) : BVState :=
  match op with
  | .runScript _ _ => s
  | .jsCallback id res =>
    match lookupEntry id s.jsResults with
    | some e => { s with jsResults := setEntry id ⟨e.semaphore + 1, res⟩ s.jsResults }
    | none => s
  | .otherOp => s

/-- `while gtk.events_pending(): gtk.main_iteration()` — drain the
pending main-loop callbacks in order. -/
def pumpEvents (s : BVState) : BVState :=
  { s.uiQueue.foldl applyUIOp s with uiQueue := [] }

/-- `self.pywebview_window.closing.set()`. -/
def stepClosing (s : BVState) : BVState :=
  { s with closingSet := true }

/-- `for res in self.js_results.values(): res['semaphore'].release()` —
release every pending JS-evaluation waiter. -/
def releaseAll (s : BVState) : BVState :=
  { s with jsResults := s.jsResults.map (fun kv => (kv.1, ⟨kv.2.semaphore + 1, kv.2.result⟩)) }

/-- `self.window.destroy()` on the native window. -/
def stepDestroy (s : BVState) : BVState :=
  { s with nativeDestroyed := true }

/-- `del BrowserView.instances[self.uid]` after the membership check has
been established by the caller. -/
def stepRemoveInstance (s : BVState) : BVState :=
  { s with instances := s.instances.erase s.uid }

/-- `if self.pywebview_window in windows: windows.remove(...)`. -/
def stepRemoveWindow (s : BVState) : BVState :=
  if s.uid ∈ s.windowsList then { s with windowsList := s.windowsList.erase s.uid } else s

/-- `self.pywebview_window.closed.set()`. -/
def stepSetClosed (s : BVState) : BVState :=
  { s with closedSet := true }

/-- `if BrowserView.instances == {}: gtk.main_quit()`. -/
def stepQuitIfEmpty (s : BVState) : BVState :=
  if s.instances = [] then { s with mainLevel := 0 } else s

/-- `BrowserView.close_window`: signal `closing`, release every pending
JS-evaluation semaphore, drain pending main-loop iterations, destroy the
native window, delete the uid from the live-instance table (`del`
raises `KeyError` when the uid is absent), remove the window from the
global list if present, signal `closed`, and quit the main loop when no
instances remain. -/
def close_window (s : BVState) : Except PyErr BVState :=
  let s4 := stepDestroy (pumpEvents (releaseAll (stepClosing s)))
  if s4.uid ∈ s4.instances then
    .ok (stepQuitIfEmpty (stepSetClosed (stepRemoveWindow (stepRemoveInstance s4))))
  else
    .error .keyError

/-- What `dialog.run()` on the modal OK/Cancel confirmation returns: OK,
Cancel, or the dismissal of the dialog. -/
inductive DialogResponse where
  | ok : DialogResponse
  | cancel : DialogResponse
  | deleteEvent : DialogResponse
deriving DecidableEq

/-- `BrowserView.on_destroy`: show the modal quit-confirmation dialog,
invoke `close_window` only when the user answers OK, and otherwise only
destroy the dialog, leaving every piece of window state untouched. -/
def on_destroy (resp : DialogResponse) (s : BVState) : Except PyErr BVState :=
  if resp = .ok then close_window s else .ok s

/-- The `delete-event` handler wired in `BrowserView.__init__`:
`on_destroy` when the window was created with `confirm_close`, and
`close_window` directly otherwise. -/
def delete_event_handler (resp : DialogResponse) (s : BVState) : Except PyErr BVState :=
  if s.confirmClose then on_destroy resp s else close_window s

/-- Fresh call ids as drawn from `uuid1().hex`: modelled as a hex-free
stream indexed by a per-state counter; uniqueness against the ids already
in the table is the environment guarantee of `uuid1` and appears as a
hypothesis where needed. -/
def genUuid (n : Nat) : String :=
  "uuid" ++ toString n

/-- The legacy-transport wrapping of the script
(`document.title = JSON.stringify({"type": "eval", "uid": ..., "result": ...})`)
applied when the renderer cannot report script results directly. -/
def wrapEval (unique_id script : String) : String :=
  "document.title = JSON.stringify(\x7b\"type\": \"eval\", \"uid\": \"" ++ unique_id ++
    "\", \"result\": " ++ script ++ "\x7d)"

/-- The decoding `evaluate_js` applies to the stored result slot:
`None if result == 'undefined' or result == 'null' or result is None
else result if result == '' else json.loads(result)`.  A slot holding a
non-string other than `None` reaches `json.loads`, which raises
`TypeError` on non-strings; a string that fails to parse raises
`ValueError`. -/
def decode_result (r : PyVal) : Except PyErr PyVal :=
  match r with
  | .pynone => .ok .pynone
  | .pystr t =>
    if t = "undefined" ∨ t = "null" then .ok .pynone
    else if t = "" then .ok (.pystr "")
    else
      match json_loads t with
      | some v => .ok v
      | none => .error .valueError
  | _ => .error .typeError

/-- The first, caller-thread phase of `BrowserView.evaluate_js` up to the
suspension on the result semaphore: generate the fresh call id, register
a zero-permit semaphore with a `None` result slot, wrap the script for
the legacy transport when the renderer is an old WebKit, and (after the
blocking `self.loaded.wait()` admits the caller) enqueue the
`_evaluate_js` submission onto the main loop with `glib.idle_add`. -/
def evaluate_js_register (ow : Bool) (script : String) (s : BVState) : String × BVState :=
  let unique_id := genUuid s.uuidCounter
  let s1 := { s with
    uuidCounter := s.uuidCounter + 1,
    jsResults := s.jsResults ++ [(unique_id, (⟨0, .pynone⟩ : JSEntry))] }
  let script1 := if ow then wrapEval unique_id script else script
  let s2 := { s1 with uiQueue := s1.uiQueue ++ [UIOp.runScript unique_id script1] }
  (unique_id, s2)

/-- `result_semaphore.acquire()`: succeeds (decrementing the permit
count) exactly when the semaphore has a permit; `none` means the calling
thread stays blocked. -/
def semaphore_acquire (id : String) (s : BVState) : Option BVState :=
  match lookupEntry id s.jsResults with
  | some e =>
    if e.semaphore = 0 then none
    else some { s with jsResults := setEntry id ⟨e.semaphore - 1, e.result⟩ s.jsResults }
  | none => none

/-- The final, post-wakeup phase of `BrowserView.evaluate_js`: when
`gtk.main_level()` is `0` the webview has been closed and the call
returns `None` without touching the table; otherwise the stored result
is read, decoded, and the table entry deleted before returning. -/
def evaluate_js_finish (id : String) (s : BVState) : Except PyErr (PyVal × BVState) :=
  if s.mainLevel = 0 then .ok (.pynone, s)
  else
    match lookupEntry id s.jsResults with
    | none => .error .keyError
    | some e =>
      match decode_result e.result with
      | .error err => .error err
      | .ok v => .ok (v, { s with jsResults := eraseEntry id s.jsResults })

/-- The successive actions of the `evaluate_js` caller thread, in the
order the source performs them. -/
inductive EvalAction where
  | genId : EvalAction
  | registerEntry : EvalAction
  | wrapScript : EvalAction
  | waitLoaded : EvalAction
  | enqueueDispatch : EvalAction
  | acquireSemaphore : EvalAction
  | checkMainLevel : EvalAction
  | decodeStep : EvalAction
  | deleteEntry : EvalAction
deriving DecidableEq

/-- The caller-thread action sequence of `BrowserView.evaluate_js`:
generate the id, register the semaphore/slot, wrap for the legacy
transport, block on `loaded`, enqueue the submission with
`glib.idle_add`, block on the result semaphore, check
`gtk.main_level()`, decode, delete the entry. -/
def evaluate_js_actions : List EvalAction :=
  [.genId, .registerEntry, .wrapScript, .waitLoaded, .enqueueDispatch,
   .acquireSemaphore, .checkMainLevel, .decodeStep, .deleteEntry]

/-- `BrowserView.JSBridge.call`: a `param` equal to the string
`'undefined'` is mapped to `None` before the native handler
(`js_bridge_call`, modelled from the spec as driving the native-exposed
function — here an arbitrary handler argument) is invoked. -/
def JSBridge.call (handler : PyVal → PyVal → PyVal → PrimVal)
    (func_name param value_id : PyVal) : PyVal × PrimVal :=
  let param1 := if pyEqStr param "undefined" then .pynone else param
  (param1, handler func_name param1 value_id)

/-- The script the `invoke` branch injects back into the renderer:
`'pywebview._bridge.return_val = "{0}";'.format(escape_string(str(return_val)))`. -/
def injectedReturnScript (return_val : PrimVal) : String :=
  "pywebview._bridge.return_val = \"" ++ escape_string (pyStrPrim return_val) ++ "\";"

/-- `BrowserView.on_title_change`: decode the reported title as JSON
(decode failures are caught, logged and dropped), return when the
decoded value has no `type` member, handle the legacy `eval` result
delivery (store the result and release the matching waiter), and handle
`invoke` by calling the bridge and injecting the escaped stringified
return value.  Only the JSON decode errors are caught; `TypeError` and
`KeyError` raised by the membership test, the subscriptions or the table
lookup propagate. -/
def on_title_change (handler : PyVal → PyVal → PyVal → PrimVal) (ow : Bool)
    (title : String) (s : BVState) : Except PyErr BVState :=
  match json_loads title with
  | none => .ok s
  | some js_data =>
    match pyContains "type" js_data with
    | .error e => .error e
    | .ok false => .ok s
    | .ok true =>
      match pyGetItem js_data "type" with
      | .error e => .error e
      | .ok tyv =>
        if pyEqStr tyv "eval" ∧ ow then
          match pyGetItem js_data "uid" with
          | .error e => .error e
          | .ok uidv =>
            let result : PyVal :=
              match js_data with
              | .pydict kvs => (dictLookup "result" kvs).getD .pynone
              | _ => .pynone
            match uidv with
            | .pystr u =>
              match lookupEntry u s.jsResults with
              | some e =>
                .ok { s with jsResults := setEntry u ⟨e.semaphore + 1, result⟩ s.jsResults }
              | none => .error .keyError
            | _ => .error .keyError
        else if pyEqStr tyv "invoke" then
          match pyGetItem js_data "function" with
          | .error e => .error e
          | .ok fv =>
            match pyGetItem js_data "id" with
            | .error e => .error e
            | .ok idv =>
              let param : PyVal :=
                match js_data with
                | .pydict kvs => (dictLookup "param" kvs).getD .pynone
                | _ => .pynone
              let callRes := JSBridge.call handler fv param idv
              .ok { s with
                bridgeCalls := s.bridgeCalls ++ [(fv, callRes.1, idv)],
                scriptsRun := s.scriptsRun ++ [injectedReturnScript callRes.2] }
        else .ok s

/-- A deferred-execution tuple pushed onto the worker's `mp_idle_add`
inbox queue: the callable together with its arguments. -/
inductive MpItem where
  | moveItem : Int → Int → String → MpItem
deriving DecidableEq

/-- The state the module-level command router touches: the
multi-process-mode flag (`_multiprocessing`), the worker inbox queue
(`mp_idle_add`), and the names bound at module scope (which the module
never binds `title` among). -/
structure RouterState where
  multiprocessing : Bool
  mpQueue : List MpItem
deriving DecidableEq

/-- The module-level `move(x, y, uid)` router: in multi-process mode it
pushes the deferred tuple `(_move, x, y, uid)` onto the worker inbox;
in single-process mode the source evaluates `_move(title, uid)`, and the
name `title` is bound nowhere at module scope, so the call raises
`NameError` before any operation is scheduled. -/
def move (x y : Int) (uid : String) (st : RouterState) : Except PyErr RouterState :=
  if st.multiprocessing then
    .ok { st with mpQueue := st.mpQueue ++ [MpItem.moveItem x y uid] }
  else
    .error (.nameError "title")

/-- The three file dialog kinds the `webview` package passes down
(`OPEN_DIALOG`, `FOLDER_DIALOG`, `SAVE_DIALOG`). -/
inductive DialogKind where
  | openDialog : DialogKind
  | folderDialog : DialogKind
  | saveDialog : DialogKind
deriving DecidableEq

/-- The user's interaction with the GTK file chooser: the response
(`gtk.ResponseType.OK` or a cancel/dismiss), what
`dialog.get_filenames()` would return (the selected paths in selection
order) and what `dialog.get_filename()` would return (the single
filename, for save dialogs). -/
structure ChooserEnv where
  accepted : Bool
  selectedPaths : List String
  singleFilename : String
deriving DecidableEq

/-- What Python's `str` or `list` values look like as a file-dialog
result: `get_filename` returns one string, `get_filenames` a list of
strings. -/
inductive FileResult where
  | singlePath : String → FileResult
  | pathList : List String → FileResult
deriving DecidableEq

/-- `BrowserView.create_file_dialog`: run the chooser; on OK return the
single filename for save dialogs and the selected-path list otherwise;
on cancel or dismiss return `None`. -/
def create_file_dialog_view (kind : DialogKind) (env : ChooserEnv) : Option FileResult :=
  if env.accepted then
    if kind = .saveDialog then some (.singlePath env.singleFilename)
    else some (.pathList env.selectedPaths)
  else none

/-- Python's `tuple(result)` on a dialog result: iterating a list yields
its elements; iterating a string yields its characters, each as a
one-character string. -/
def pyTuple : FileResult → List String
  | .pathList xs => xs
  | .singlePath p => p.toList.map (fun c => String.mk [c])

/-- The module-level `_create_file_dialog` reply: `None` is sent through
the one-shot pipe unchanged, and any other result is sent as
`tuple(result)`; the module-level `create_file_dialog` returns exactly
what was sent. -/
def create_file_dialog (kind : DialogKind) (env : ChooserEnv) : Option (List String) :=
  (create_file_dialog_view kind env).map pyTuple

/-- Whether a queued main-loop callback would deliver into the table
entry of the given call id. -/
def opDelivers (k : String) : UIOp → Bool
  | .jsCallback id _ => id = k
  | _ => false

/-- Whether a decoded JSON value is an object (a Python dict). -/
def isDict : PyVal → Bool
  | .pydict _ => true
  | _ => false

/-- Whether a decoded JSON value is a non-container scalar — `None`, a
boolean or a number — i.e. a value Python's `in` membership test raises
`TypeError` on. -/
def isScalar : PyVal → Bool
  | .pynone => true
  | .pybool _ => true
  | .pyint _ => true
  | .pyfloat _ => true
  | _ => false

/-- A trivial native-side handler (returns `None`), used to instantiate
the bridge at concrete inputs. -/
def handler0 : PyVal → PyVal → PyVal → PrimVal :=
  fun _ _ _ => .pnone

/-- A concrete live window state: uid `w1`, no confirm-close, empty
evaluation table, loaded and shown, one live instance, main loop
running. -/
def baseState : BVState :=
  { uid := "w1", confirmClose := false, jsResults := [], loadedSet := true,
    shownSet := true, closingSet := false, closedSet := false,
    nativeDestroyed := false, instances := ["w1"], windowsList := ["w1"],
    mainLevel := 1, uiQueue := [], uuidCounter := 0, bridgeCalls := [],
    scriptsRun := [] }

/-- `baseState` with one pending evaluation entry (id `a`, zero permits,
empty slot). -/
def pendingState : BVState :=
  { baseState with jsResults := [("a", (⟨0, .pynone⟩ : JSEntry))] }

/-- A post-wakeup state whose entry `a` holds the stored stringified
result `5` with one permit consumed pending. -/
def finishState : BVState :=
  { baseState with jsResults := [("a", (⟨0, .pystr "5"⟩ : JSEntry))] }

/-- `baseState` with `confirm_close` set. -/
def confirmState : BVState :=
  { baseState with confirmClose := true }

/-- A JSON-object title carrying an `invoke` payload for function `f`,
id `x1` and param `hello`. -/
def invokeTitle : String :=
  "\x7b\"type\": \"invoke\", \"function\": \"f\", \"id\": \"x1\", \"param\": \"hello\"\x7d"

example : json_loads "123" = some (.pyint 123) := rfl
example : json_loads "My Page" = none := rfl
example : json_loads " null " = some .pynone := rfl
example : json_loads "\"abc\"" = some (.pystr "abc") := rfl
example : json_loads "[1, 2]" = some (.pylist [.pyint 1, .pyint 2]) := rfl
example : json_loads "\x7b\"type\": \"eval\", \"uid\": \"u1\", \"result\": 5\x7d" =
    some (.pydict [("type", .pystr "eval"), ("uid", .pystr "u1"), ("result", .pyint 5)]) := rfl
example : json_loads "-2" = some (.pyint (-2)) := rfl
example : json_loads "1.5" = some (.pyfloat "1.5") := rfl
example : json_loads "01" = none := rfl
example : json_loads "true false" = none := rfl
example : pyContains "type" (.pystr "my type") = .ok true := rfl
example : pyContains "type" (.pyint 3) = .error .typeError := rfl
example : pyGetItem (.pystr "type") "type" = .error .typeError := rfl

theorem unescChars_escChar_flatten (l : List Char) :
    jsLiteralEval.unescChars ((l.map escChar).flatten) = l := by
  induction l with
  | nil => rfl
  | cons c rest ih =>
    show jsLiteralEval.unescChars (escChar c ++ ((rest.map escChar).flatten)) = c :: rest
    by_cases h1 : c = '\\'
    · subst h1; simpa [escChar, jsLiteralEval.unescChars] using ih
    · by_cases h2 : c = '"'
      · subst h2; simpa [escChar, jsLiteralEval.unescChars] using ih
      · by_cases h3 : c = '\n'
        · subst h3; simpa [escChar, jsLiteralEval.unescChars] using ih
        · simp only [escChar, h1, h2, h3, if_false, List.singleton_append]
          rw [show ∀ l2, jsLiteralEval.unescChars (c :: l2) = c :: jsLiteralEval.unescChars l2 from ?_]
          · rw [ih]
          · intro l2
            cases l2 <;> simp [jsLiteralEval.unescChars, h1]

theorem jsLiteralEval_escape_string (s : String) : jsLiteralEval (escape_string s) = s := by
  rcases s with ⟨l⟩
  have h := unescChars_escChar_flatten l
  exact congrArg String.mk h

theorem channelValue_eq_pyStr (v : PrimVal) : channelValue v = pyStrPrim v :=
  jsLiteralEval_escape_string (pyStrPrim v)

theorem lookupEntry_append_fresh (id : String) (e : JSEntry) (l : List (String × JSEntry))
    (h : id ∉ l.map Prod.fst) :
    lookupEntry id (l ++ [(id, e)]) = some e := by
  induction l with
  | nil => simp [lookupEntry]
  | cons kv rest ih =>
    have hne : kv.1 ≠ id := fun hh => h (by simp [hh])
    have hr : id ∉ rest.map Prod.fst := fun hh => h (by simp [hh])
    show (if kv.1 = id then some kv.2 else lookupEntry id (rest ++ [(id, e)])) = some e
    rw [if_neg hne, ih hr]

theorem lookupEntry_map_release (k : String) (l : List (String × JSEntry)) :
    lookupEntry k (l.map fun kv => (kv.1, (⟨kv.2.semaphore + 1, kv.2.result⟩ : JSEntry))) =
      (lookupEntry k l).map fun e => (⟨e.semaphore + 1, e.result⟩ : JSEntry) := by
  induction l with
  | nil => rfl
  | cons kv rest ih =>
    by_cases h : kv.1 = k
    · simp [lookupEntry, h]
    · simp [lookupEntry, h, ih]

theorem lookupEntry_setEntry_self (id : String) (e e0 : JSEntry) (l : List (String × JSEntry))
    (h : lookupEntry id l = some e0) :
    lookupEntry id (setEntry id e l) = some e := by
  induction l with
  | nil => simp [lookupEntry] at h
  | cons kv rest ih =>
    by_cases hk : kv.1 = id
    · simp [setEntry, lookupEntry, hk]
    · simp only [lookupEntry, hk, if_false] at h
      simp [setEntry, lookupEntry, hk, ih h]

theorem lookupEntry_setEntry_ne (id k : String) (e : JSEntry) (l : List (String × JSEntry))
    (h : k ≠ id) :
    lookupEntry k (setEntry id e l) = lookupEntry k l := by
  induction l with
  | nil => rfl
  | cons kv rest ih =>
    rcases kv with ⟨k0, e0⟩
    by_cases hk : k0 = id
    · have hne : k0 ≠ k := fun hh => h (hh.symm.trans hk)
      show lookupEntry k (if k0 = id then (k0, e) :: rest else (k0, e0) :: setEntry id e rest) =
        lookupEntry k ((k0, e0) :: rest)
      rw [if_pos hk]
      show (if k0 = k then some e else lookupEntry k rest) =
        if k0 = k then some e0 else lookupEntry k rest
      rw [if_neg hne, if_neg hne]
    · show lookupEntry k (if k0 = id then (k0, e) :: rest else (k0, e0) :: setEntry id e rest) =
        lookupEntry k ((k0, e0) :: rest)
      rw [if_neg hk]
      show (if k0 = k then some e0 else lookupEntry k (setEntry id e rest)) =
        if k0 = k then some e0 else lookupEntry k rest
      rw [ih]

theorem applyUIOp_shape (s : BVState) (op : UIOp) :
    ∃ r, applyUIOp s op = { s with jsResults := r } := by
  cases op with
  | runScript a b => exact ⟨s.jsResults, rfl⟩
  | otherOp => exact ⟨s.jsResults, rfl⟩
  | jsCallback id res =>
    cases h : lookupEntry id s.jsResults with
    | none => exact ⟨s.jsResults, by simp [applyUIOp, h]⟩
    | some e =>
      exact ⟨setEntry id ⟨e.semaphore + 1, res⟩ s.jsResults, by simp [applyUIOp, h]⟩

theorem applyUIOp_sem_mono (s : BVState) (op : UIOp) (k : String) (e : JSEntry)
    (h : lookupEntry k s.jsResults = some e) :
    ∃ e', lookupEntry k (applyUIOp s op).jsResults = some e' ∧ e.semaphore ≤ e'.semaphore := by
  cases op with
  | runScript a b => exact ⟨e, h, le_refl _⟩
  | otherOp => exact ⟨e, h, le_refl _⟩
  | jsCallback id res =>
    cases hl : lookupEntry id s.jsResults with
    | none => exact ⟨e, by simp [applyUIOp, hl, h], le_refl _⟩
    | some e1 =>
      by_cases hk : k = id
      · subst hk
        rw [h] at hl
        cases hl
        refine ⟨⟨e.semaphore + 1, res⟩, ?_, Nat.le_succ _⟩
        simp only [applyUIOp]
        rw [h]
        exact lookupEntry_setEntry_self k _ e _ h
      · refine ⟨e, ?_, le_refl _⟩
        simp only [applyUIOp, hl]
        rw [lookupEntry_setEntry_ne id k _ _ hk]
        exact h

theorem applyUIOp_no_deliver (s : BVState) (op : UIOp) (k : String)
    (h : opDelivers k op = false) :
    lookupEntry k (applyUIOp s op).jsResults = lookupEntry k s.jsResults := by
  cases op with
  | runScript a b => rfl
  | otherOp => rfl
  | jsCallback id res =>
    have hne : id ≠ k := by
      simpa [opDelivers] using h
    cases hl : lookupEntry id s.jsResults with
    | none => simp [applyUIOp, hl]
    | some e1 =>
      simp only [applyUIOp, hl]
      exact lookupEntry_setEntry_ne id k _ _ (fun hh => hne hh.symm)

theorem foldl_applyUIOp_shape (ops : List UIOp) :
    ∀ s : BVState, ∃ r, ops.foldl applyUIOp s = { s with jsResults := r } := by
  induction ops with
  | nil => intro s; exact ⟨s.jsResults, rfl⟩
  | cons op rest ih =>
    intro s
    obtain ⟨r1, h1⟩ := applyUIOp_shape s op
    obtain ⟨r2, h2⟩ := ih (applyUIOp s op)
    exact ⟨r2, by rw [List.foldl_cons, h2, h1]⟩

theorem foldl_applyUIOp_sem_mono (ops : List UIOp) :
    ∀ (s : BVState) (k : String) (e : JSEntry), lookupEntry k s.jsResults = some e →
      ∃ e', lookupEntry k (ops.foldl applyUIOp s).jsResults = some e' ∧
        e.semaphore ≤ e'.semaphore := by
  induction ops with
  | nil => intro s k e h; exact ⟨e, h, le_refl _⟩
  | cons op rest ih =>
    intro s k e h
    obtain ⟨e1, h1, hle1⟩ := applyUIOp_sem_mono s op k e h
    obtain ⟨e2, h2, hle2⟩ := ih (applyUIOp s op) k e1 h1
    exact ⟨e2, h2, le_trans hle1 hle2⟩

theorem foldl_applyUIOp_no_deliver (ops : List UIOp) :
    ∀ (s : BVState) (k : String), (∀ op ∈ ops, opDelivers k op = false) →
      lookupEntry k (ops.foldl applyUIOp s).jsResults = lookupEntry k s.jsResults := by
  induction ops with
  | nil => intro s k _; rfl
  | cons op rest ih =>
    intro s k h
    rw [List.foldl_cons, ih (applyUIOp s op) k (fun o ho => h o (List.mem_cons_of_mem _ ho)),
      applyUIOp_no_deliver s op k (h op (List.mem_cons_self _ _))]

theorem pumpEvents_shape (s : BVState) :
    ∃ r, pumpEvents s = { s with jsResults := r, uiQueue := [] } := by
  obtain ⟨r, h⟩ := foldl_applyUIOp_shape s.uiQueue s
  exact ⟨r, by rw [pumpEvents, h]⟩

theorem pumpEvents_sem_mono (s : BVState) (k : String) (e : JSEntry)
    (h : lookupEntry k s.jsResults = some e) :
    ∃ e', lookupEntry k (pumpEvents s).jsResults = some e' ∧ e.semaphore ≤ e'.semaphore := by
  obtain ⟨e', h', hle⟩ := foldl_applyUIOp_sem_mono s.uiQueue s k e h
  exact ⟨e', by rw [pumpEvents]; exact h', hle⟩

theorem pumpEvents_no_deliver (s : BVState) (k : String)
    (h : ∀ op ∈ s.uiQueue, opDelivers k op = false) :
    lookupEntry k (pumpEvents s).jsResults = lookupEntry k s.jsResults := by
  rw [pumpEvents]
  exact foldl_applyUIOp_no_deliver s.uiQueue s k h

theorem stepFour_fields (s : BVState) :
    (stepDestroy (pumpEvents (releaseAll (stepClosing s)))).uid = s.uid ∧
    (stepDestroy (pumpEvents (releaseAll (stepClosing s)))).instances = s.instances ∧
    (stepDestroy (pumpEvents (releaseAll (stepClosing s)))).windowsList = s.windowsList ∧
    (stepDestroy (pumpEvents (releaseAll (stepClosing s)))).mainLevel = s.mainLevel ∧
    (stepDestroy (pumpEvents (releaseAll (stepClosing s)))).closedSet = s.closedSet ∧
    (stepDestroy (pumpEvents (releaseAll (stepClosing s)))).closingSet = true := by
  obtain ⟨r, hr⟩ := pumpEvents_shape (releaseAll (stepClosing s))
  rw [stepDestroy, hr]
  simp [releaseAll, stepClosing]

theorem close_window_of_mem (s : BVState) (h : s.uid ∈ s.instances) :
    close_window s =
      .ok (stepQuitIfEmpty (stepSetClosed (stepRemoveWindow (stepRemoveInstance
        (stepDestroy (pumpEvents (releaseAll (stepClosing s)))))))) := by
  obtain ⟨hu, hi, -, -, -, -⟩ := stepFour_fields s
  rw [close_window]
  rw [if_pos (by rw [hu, hi]; exact h)]

theorem stepQuitIfEmpty_jsResults (s : BVState) :
    (stepQuitIfEmpty s).jsResults = s.jsResults := by
  unfold stepQuitIfEmpty
  split <;> rfl

theorem stepRemoveWindow_jsResults (s : BVState) :
    (stepRemoveWindow s).jsResults = s.jsResults := by
  unfold stepRemoveWindow
  split <;> rfl

theorem close_window_tail_jsResults (s4 : BVState) :
    (stepQuitIfEmpty (stepSetClosed (stepRemoveWindow (stepRemoveInstance s4)))).jsResults =
      s4.jsResults := by
  rw [stepQuitIfEmpty_jsResults, stepSetClosed, stepRemoveWindow_jsResults, stepRemoveInstance]

theorem close_window_entry_released (s : BVState) (k : String) (e : JSEntry)
    (hmem : s.uid ∈ s.instances) (h : lookupEntry k s.jsResults = some e) :
    ∃ s' e', close_window s = .ok s' ∧ lookupEntry k s'.jsResults = some e' ∧
      e.semaphore + 1 ≤ e'.semaphore := by
  have hrel : lookupEntry k (releaseAll (stepClosing s)).jsResults =
      some ⟨e.semaphore + 1, e.result⟩ := by
    rw [releaseAll]
    show lookupEntry k ((stepClosing s).jsResults.map _) = _
    rw [lookupEntry_map_release]
    show (lookupEntry k s.jsResults).map _ = _
    rw [h]
    rfl
  obtain ⟨e', hp, hle⟩ := pumpEvents_sem_mono (releaseAll (stepClosing s)) k _ hrel
  refine ⟨_, e', close_window_of_mem s hmem, ?_, hle⟩
  rw [close_window_tail_jsResults, stepDestroy]
  exact hp

theorem close_window_entry_untouched (s : BVState) (k : String) (e : JSEntry)
    (hmem : s.uid ∈ s.instances) (h : lookupEntry k s.jsResults = some e)
    (hq : ∀ op ∈ s.uiQueue, opDelivers k op = false) :
    ∃ s', close_window s = .ok s' ∧
      lookupEntry k s'.jsResults = some ⟨e.semaphore + 1, e.result⟩ := by
  have hrel : lookupEntry k (releaseAll (stepClosing s)).jsResults =
      some ⟨e.semaphore + 1, e.result⟩ := by
    rw [releaseAll]
    show lookupEntry k ((stepClosing s).jsResults.map _) = _
    rw [lookupEntry_map_release]
    show (lookupEntry k s.jsResults).map _ = _
    rw [h]
    rfl
  have hp : lookupEntry k (pumpEvents (releaseAll (stepClosing s))).jsResults =
      some ⟨e.semaphore + 1, e.result⟩ := by
    rw [pumpEvents_no_deliver (releaseAll (stepClosing s)) k hq, hrel]
  refine ⟨_, close_window_of_mem s hmem, ?_⟩
  rw [close_window_tail_jsResults, stepDestroy]
  exact hp

theorem finish_pynone (k : String) (t : BVState) (c : Nat)
    (h : lookupEntry k t.jsResults = some ⟨c, .pynone⟩) :
    ∃ st, evaluate_js_finish k t = .ok (.pynone, st) := by
  by_cases hml : t.mainLevel = 0
  · exact ⟨t, by simp [evaluate_js_finish, hml]⟩
  · exact ⟨{ t with jsResults := eraseEntry k t.jsResults },
      by simp [evaluate_js_finish, hml, h, decode_result]⟩

theorem stepQuitIfEmpty_fields (s : BVState) :
    (stepQuitIfEmpty s).closingSet = s.closingSet ∧
    (stepQuitIfEmpty s).closedSet = s.closedSet ∧
    (stepQuitIfEmpty s).uid = s.uid ∧
    (stepQuitIfEmpty s).instances = s.instances ∧
    (stepQuitIfEmpty s).windowsList = s.windowsList ∧
    (stepQuitIfEmpty s).mainLevel = (if s.instances = [] then 0 else s.mainLevel) := by
  unfold stepQuitIfEmpty
  split <;> simp [*]

theorem stepRemoveWindow_fields (s : BVState) :
    (stepRemoveWindow s).closingSet = s.closingSet ∧
    (stepRemoveWindow s).closedSet = s.closedSet ∧
    (stepRemoveWindow s).uid = s.uid ∧
    (stepRemoveWindow s).instances = s.instances ∧
    (stepRemoveWindow s).mainLevel = s.mainLevel ∧
    (stepRemoveWindow s).windowsList =
      (if s.uid ∈ s.windowsList then s.windowsList.erase s.uid else s.windowsList) := by
  unfold stepRemoveWindow
  split <;> simp [*]

/-- C1: for every script and every live window, `evaluate_js` generates
a fresh call id (the drawn uuid is new whenever it differs from every id
already in the table, which `uuid1` guarantees), registers a zero-permit
semaphore with an empty (`None`) result slot, performs the blocking
`loaded.wait()` before the `glib.idle_add` enqueue of the script
submission onto the UI loop and blocks on the semaphore after it; on
wakeup, if the UI loop has terminated (`gtk.main_level() == 0`) it
returns `None`; otherwise it decodes the stored result — literal
`'undefined'`, literal `'null'` or an absent (`None`) slot yield `None`,
the empty string yields the empty string, and any other stored string is
parsed as JSON — and the table entry for the call id is removed in the
state it returns. -/
theorem evaluate_js_contract :
    (∀ (ow : Bool) (script : String) (s : BVState),
      genUuid s.uuidCounter ∉ s.jsResults.map Prod.fst →
        (evaluate_js_register ow script s).1 = genUuid s.uuidCounter ∧
        (evaluate_js_register ow script s).1 ∉ s.jsResults.map Prod.fst ∧
        lookupEntry (evaluate_js_register ow script s).1
          (evaluate_js_register ow script s).2.jsResults = some ⟨0, .pynone⟩ ∧
        (evaluate_js_register ow script s).2.uiQueue =
          s.uiQueue ++ [UIOp.runScript (genUuid s.uuidCounter)
            (if ow then wrapEval (genUuid s.uuidCounter) script else script)]) ∧
    List.indexOf EvalAction.waitLoaded evaluate_js_actions <
      List.indexOf EvalAction.enqueueDispatch evaluate_js_actions ∧
    List.indexOf EvalAction.enqueueDispatch evaluate_js_actions <
      List.indexOf EvalAction.acquireSemaphore evaluate_js_actions ∧
    (∀ (id : String) (t : BVState), t.mainLevel = 0 →
      evaluate_js_finish id t = .ok (.pynone, t)) ∧
    (∀ (id : String) (t : BVState) (c : Nat) (r : PyVal), t.mainLevel ≠ 0 →
      lookupEntry id t.jsResults = some ⟨c, r⟩ →
      (r = .pynone ∨ r = .pystr "undefined" ∨ r = .pystr "null" →
        evaluate_js_finish id t =
          .ok (.pynone, { t with jsResults := eraseEntry id t.jsResults })) ∧
      (r = .pystr "" →
        evaluate_js_finish id t =
          .ok (.pystr "", { t with jsResults := eraseEntry id t.jsResults })) ∧
      (∀ (str : String) (v : PyVal), r = .pystr str → str ≠ "undefined" → str ≠ "null" →
        str ≠ "" → json_loads str = some v →
        evaluate_js_finish id t =
          .ok (v, { t with jsResults := eraseEntry id t.jsResults }))) := by
  refine ⟨?_, by decide, by decide, ?_, ?_⟩
  · intro ow script s hfresh
    refine ⟨rfl, hfresh, ?_, rfl⟩
    exact lookupEntry_append_fresh _ _ _ hfresh
  · intro id t hml
    simp [evaluate_js_finish, hml]
  · intro id t c r hml hl
    refine ⟨?_, ?_, ?_⟩
    · rintro (rfl | rfl | rfl) <;>
        simp [evaluate_js_finish, hml, hl, decode_result]
    · rintro rfl
      simp [evaluate_js_finish, hml, hl, decode_result]
    · rintro str v rfl h1 h2 h3 hj
      simp [evaluate_js_finish, hml, hl, decode_result, h1, h2, h3, hj]

/-- C1 witness: a fresh registration on a concrete loaded window, and a
finish step decoding the stored string `5` as the JSON number 5 with the
entry removed. -/
theorem evaluate_js_contract_witness :
    (evaluate_js_register false "2 + 3" baseState).1 = "uuid0" ∧
    lookupEntry "uuid0" (evaluate_js_register false "2 + 3" baseState).2.jsResults =
      some ⟨0, .pynone⟩ ∧
    evaluate_js_finish "a" finishState =
      .ok (.pyint 5, { finishState with jsResults := [] }) := by
  have h1 := (evaluate_js_contract.1 false "2 + 3" baseState (by decide)).1
  have h3 := (evaluate_js_contract.1 false "2 + 3" baseState (by decide)).2.2.1
  have h5 := ((evaluate_js_contract.2.2.2.2 "a" finishState 0 (.pystr "5")
    (by decide) rfl).2.2 "5" (.pyint 5) rfl (by decide) (by decide) (by decide) rfl)
  exact ⟨h1, h3, h5⟩

/-- C2: in the caller-thread action sequence of `evaluate_js`, the
blocking `loaded.wait()` strictly precedes the `glib.idle_add` dispatch
of the script (so nothing is submitted to the renderer before `loaded`
is set), and a call that is still pending (zero or more permits, empty
slot, no completion for it queued) when the window closes is not
deadlocked: `close_window` leaves its semaphore with a permit, the
acquire succeeds, and the finish step returns `None`. -/
theorem evaluate_js_no_deadlock :
    List.indexOf EvalAction.waitLoaded evaluate_js_actions <
      List.indexOf EvalAction.enqueueDispatch evaluate_js_actions ∧
    (∀ (s : BVState) (k : String) (e : JSEntry),
      s.uid ∈ s.instances →
      lookupEntry k s.jsResults = some e →
      e.result = .pynone →
      (∀ op ∈ s.uiQueue, opDelivers k op = false) →
      ∃ s', close_window s = .ok s' ∧
        lookupEntry k s'.jsResults = some ⟨e.semaphore + 1, .pynone⟩ ∧
        (∀ s'', semaphore_acquire k s' = some s'' →
          ∃ st, evaluate_js_finish k s'' = .ok (.pynone, st))) := by
  refine ⟨by decide, ?_⟩
  intro s k e hmem hl hres hq
  obtain ⟨s', hc, hl'⟩ := close_window_entry_untouched s k e hmem hl hq
  rw [hres] at hl'
  refine ⟨s', hc, hl', ?_⟩
  intro s'' hacq
  rw [semaphore_acquire, hl'] at hacq
  simp only [Nat.succ_ne_zero, if_false] at hacq
  cases hacq
  exact finish_pynone k _ (e.semaphore + 1 - 1) (lookupEntry_setEntry_self k _ _ _ hl')

/-- C2 witness: a concrete window with one pending call and an unrelated
queued event: closing it releases the waiter and the call finishes with
`None`. -/
theorem evaluate_js_no_deadlock_witness :
    ∃ s', close_window pendingState = .ok s' ∧
      lookupEntry "a" s'.jsResults = some ⟨1, .pynone⟩ ∧
      (∀ s'', semaphore_acquire "a" s' = some s'' →
        ∃ st, evaluate_js_finish "a" s'' = .ok (.pynone, st)) :=
  evaluate_js_no_deadlock.2 pendingState "a" ⟨0, .pynone⟩ (by decide) rfl rfl
    (by intro op hop; simp [pendingState, baseState] at hop)

/-- C3: destroying a window releases every outstanding `evaluate_js`
waiter: each entry of the in-flight table ends `close_window` with its
semaphore strictly above its prior permit count (at least one permit),
so each blocked acquire succeeds — no calling thread remains blocked on
a wait primitive after teardown. -/
theorem close_window_releases_all_waiters :
    ∀ s : BVState, s.uid ∈ s.instances →
      ∃ s', close_window s = .ok s' ∧
        ∀ (k : String) (e : JSEntry), lookupEntry k s.jsResults = some e →
          ∃ e', lookupEntry k s'.jsResults = some e' ∧
            e.semaphore + 1 ≤ e'.semaphore ∧ (semaphore_acquire k s').isSome = true := by
  intro s hmem
  refine ⟨_, close_window_of_mem s hmem, ?_⟩
  intro k e h
  obtain ⟨s'', e', hc, hl, hle⟩ := close_window_entry_released s k e hmem h
  rw [close_window_of_mem s hmem] at hc
  cases hc
  refine ⟨e', hl, hle, ?_⟩
  have hne : e'.semaphore ≠ 0 := by omega
  simp [semaphore_acquire, hl, hne]

/-- C3 witness: closing the concrete window with one zero-permit waiter
leaves that waiter with a permit and an enabled acquire. -/
theorem close_window_releases_all_waiters_witness :
    ∃ s', close_window pendingState = .ok s' ∧
      ∀ (k : String) (e : JSEntry), lookupEntry k pendingState.jsResults = some e →
        ∃ e', lookupEntry k s'.jsResults = some e' ∧
          e.semaphore + 1 ≤ e'.semaphore ∧ (semaphore_acquire k s').isSome = true :=
  close_window_releases_all_waiters pendingState (by decide)

/-- C4: `close_window` performs its teardown steps in source order —
signal `closing`, release every pending JS-evaluation waiter, pump the
pending UI-loop iterations, destroy the native window, remove the uid
from the live-instance table, remove the window from the global window
list, signal `closed`, and quit the shared UI loop — settling the loop
iff no live instances remain; in particular, at the state where the uid
has just been deleted from the live-instance table, `closed` is still
unset, so the mapping is removed strictly before `closed` is signalled. -/
theorem close_window_teardown_order :
    ∀ s : BVState, s.uid ∈ s.instances → s.instances.Nodup → s.windowsList.Nodup →
      s.closedSet = false → s.mainLevel ≠ 0 →
      close_window s =
        .ok (stepQuitIfEmpty (stepSetClosed (stepRemoveWindow (stepRemoveInstance
          (stepDestroy (pumpEvents (releaseAll (stepClosing s)))))))) ∧
      (stepClosing s).closingSet = true ∧
      (stepRemoveInstance (stepDestroy (pumpEvents (releaseAll (stepClosing s))))).closedSet =
        false ∧
      s.uid ∉
        (stepRemoveInstance (stepDestroy (pumpEvents (releaseAll (stepClosing s))))).instances ∧
      ∃ s', close_window s = .ok s' ∧ s'.closingSet = true ∧ s'.closedSet = true ∧
        s'.uid ∉ s'.instances ∧ s'.uid ∉ s'.windowsList ∧
        (s'.mainLevel = 0 ↔ s'.instances = []) := by
  intro s hmem hnd hndw hcl hml
  obtain ⟨hu, hi, hw, hm, hc, hg⟩ := stepFour_fields s
  have h5c : (stepRemoveInstance (stepDestroy (pumpEvents (releaseAll
      (stepClosing s))))).closedSet = false := by
    show (stepDestroy (pumpEvents (releaseAll (stepClosing s)))).closedSet = false
    rw [hc, hcl]
  have h5i : (stepRemoveInstance (stepDestroy (pumpEvents (releaseAll
      (stepClosing s))))).instances = s.instances.erase s.uid := by
    show (stepDestroy (pumpEvents (releaseAll (stepClosing s)))).instances.erase
      (stepDestroy (pumpEvents (releaseAll (stepClosing s)))).uid = _
    rw [hi, hu]
  have h5u : (stepRemoveInstance (stepDestroy (pumpEvents (releaseAll
      (stepClosing s))))).uid = s.uid := hu
  have h5w : (stepRemoveInstance (stepDestroy (pumpEvents (releaseAll
      (stepClosing s))))).windowsList = s.windowsList := hw
  have h5m : (stepRemoveInstance (stepDestroy (pumpEvents (releaseAll
      (stepClosing s))))).mainLevel = s.mainLevel := hm
  have h5g : (stepRemoveInstance (stepDestroy (pumpEvents (releaseAll
      (stepClosing s))))).closingSet = true := hg
  refine ⟨close_window_of_mem s hmem, rfl, h5c, ?_, ?_⟩
  · rw [h5i]
    exact List.Nodup.not_mem_erase hnd
  · refine ⟨_, close_window_of_mem s hmem, ?_, ?_, ?_, ?_, ?_⟩
    · obtain ⟨hq1, -, -, -, -, -⟩ :=
        stepQuitIfEmpty_fields (stepSetClosed (stepRemoveWindow (stepRemoveInstance
          (stepDestroy (pumpEvents (releaseAll (stepClosing s)))))))
      rw [hq1]
      show (stepRemoveWindow (stepRemoveInstance (stepDestroy (pumpEvents (releaseAll
        (stepClosing s)))))).closingSet = true
      obtain ⟨hr1, -, -, -, -, -⟩ := stepRemoveWindow_fields (stepRemoveInstance
        (stepDestroy (pumpEvents (releaseAll (stepClosing s)))))
      rw [hr1, h5g]
    · obtain ⟨-, hq2, -, -, -, -⟩ :=
        stepQuitIfEmpty_fields (stepSetClosed (stepRemoveWindow (stepRemoveInstance
          (stepDestroy (pumpEvents (releaseAll (stepClosing s)))))))
      rw [hq2]
      rfl
    · obtain ⟨-, -, hq3, hq4, -, -⟩ :=
        stepQuitIfEmpty_fields (stepSetClosed (stepRemoveWindow (stepRemoveInstance
          (stepDestroy (pumpEvents (releaseAll (stepClosing s)))))))
      rw [hq3, hq4]
      obtain ⟨-, -, hr3, hr4, -, -⟩ := stepRemoveWindow_fields (stepRemoveInstance
        (stepDestroy (pumpEvents (releaseAll (stepClosing s)))))
      show (stepRemoveWindow _).uid ∉ (stepRemoveWindow _).instances
      rw [hr3, hr4, h5u, h5i]
      exact List.Nodup.not_mem_erase hnd
    · obtain ⟨-, -, hq3, -, hq5, -⟩ :=
        stepQuitIfEmpty_fields (stepSetClosed (stepRemoveWindow (stepRemoveInstance
          (stepDestroy (pumpEvents (releaseAll (stepClosing s)))))))
      rw [hq3, hq5]
      obtain ⟨-, -, hr3, -, -, hr6⟩ := stepRemoveWindow_fields (stepRemoveInstance
        (stepDestroy (pumpEvents (releaseAll (stepClosing s)))))
      show (stepRemoveWindow _).uid ∉ (stepRemoveWindow _).windowsList
      rw [hr3, hr6, h5u, h5w]
      by_cases hmw : s.uid ∈ s.windowsList
      · rw [if_pos hmw]
        exact List.Nodup.not_mem_erase hndw
      · rw [if_neg hmw]
        exact hmw
    · obtain ⟨-, -, -, hq4, -, hq6⟩ :=
        stepQuitIfEmpty_fields (stepSetClosed (stepRemoveWindow (stepRemoveInstance
          (stepDestroy (pumpEvents (releaseAll (stepClosing s)))))))
      rw [hq4, hq6]
      obtain ⟨-, -, -, hr4, hr5, -⟩ := stepRemoveWindow_fields (stepRemoveInstance
        (stepDestroy (pumpEvents (releaseAll (stepClosing s)))))
      show (if (stepRemoveWindow _).instances = [] then 0
        else (stepRemoveWindow _).mainLevel) = 0 ↔ (stepRemoveWindow _).instances = []
      rw [hr4, hr5, h5m]
      by_cases hend : (stepRemoveInstance (stepDestroy (pumpEvents (releaseAll
          (stepClosing s))))).instances = []
      · rw [if_pos hend]
        simp [hend]
      · rw [if_neg hend]
        simp [hend, hml]

/-- C4 witness: tearing down the concrete single-instance window removes
the uid before `closed` is set and stops the loop since no instances
remain. -/
theorem close_window_teardown_order_witness :
    close_window baseState =
      .ok (stepQuitIfEmpty (stepSetClosed (stepRemoveWindow (stepRemoveInstance
        (stepDestroy (pumpEvents (releaseAll (stepClosing baseState)))))))) ∧
    (stepRemoveInstance (stepDestroy (pumpEvents (releaseAll
      (stepClosing baseState))))).closedSet = false ∧
    ∃ s', close_window baseState = .ok s' ∧ s'.closingSet = true ∧ s'.closedSet = true ∧
      s'.uid ∉ s'.instances ∧ s'.uid ∉ s'.windowsList ∧
      (s'.mainLevel = 0 ↔ s'.instances = []) := by
  obtain ⟨h1, -, h3, -, h5⟩ := close_window_teardown_order baseState (by decide)
    (by decide) (by decide) (by decide) (by decide)
  exact ⟨h1, h3, h5⟩

/-- C5: the `delete-event` close request invokes teardown directly when
`confirm_close` is unset; when it is set, teardown runs only on the OK
answer of the modal prompt, and a Cancel or a dismissal leaves the state
entirely unchanged (`closing`/`closed` stay as they were, the
live-instance table is untouched). -/
theorem delete_event_confirmation :
    ∀ (s : BVState) (resp : DialogResponse),
      (s.confirmClose = false → delete_event_handler resp s = close_window s) ∧
      (s.confirmClose = true → resp = .ok → delete_event_handler resp s = close_window s) ∧
      (s.confirmClose = true → resp ≠ .ok → delete_event_handler resp s = .ok s) := by
  intro s resp
  refine ⟨?_, ?_, ?_⟩
  · intro h
    simp [delete_event_handler, h]
  · intro h hr
    simp [delete_event_handler, on_destroy, h, hr]
  · intro h hr
    simp [delete_event_handler, on_destroy, h, hr]

/-- C5 witness: cancelling the prompt on a confirm-close window returns
the state unchanged, accepting invokes `close_window`, and a window
without confirm-close tears down directly. -/
theorem delete_event_confirmation_witness :
    delete_event_handler .cancel confirmState = .ok confirmState ∧
    delete_event_handler .ok confirmState = close_window confirmState ∧
    delete_event_handler .deleteEvent baseState = close_window baseState :=
  ⟨(delete_event_confirmation confirmState .cancel).2.2 rfl (by decide),
    (delete_event_confirmation confirmState .ok).2.1 rfl rfl,
    (delete_event_confirmation baseState .deleteEvent).1 rfl⟩

/-- C6 (code defect): the module-level `move` router pushes the deferred
`(_move, x, y, uid)` tuple onto the worker inbox in multi-process mode,
as the claim states; but in single-process mode the source evaluates
`_move(title, uid)` over the module name `title`, which is bound
nowhere, raising `NameError` — no move of the window to `(x, y)` is ever
scheduled onto the UI loop. -/
theorem move_router_eval :
    move 1 2 "master" ⟨true, []⟩ = .ok ⟨true, [MpItem.moveItem 1 2 "master"]⟩ ∧
    move 1 2 "master" ⟨false, []⟩ = .error (.nameError "title") :=
  ⟨rfl, rfl⟩

/-- C7 counterexample: no script-side decoder recovers the exact native
return value from the reinjected channel for all primitive types — the
channel carries `str(return_val)`, and the native int `5` and the native
string `'5'` both arrive as the script string `5`, so any decoder maps
them to the same value. -/
theorem bridge_round_trip_counterexample :
    ¬ ∃ d : String → PrimVal, ∀ v : PrimVal, d (channelValue v) = v := by
  rintro ⟨d, hd⟩
  have h1 := hd (.pint 5)
  have h2 := hd (.pstr "5")
  rw [show channelValue (.pint 5) = "5" from rfl] at h1
  rw [show channelValue (.pstr "5") = "5" from rfl] at h2
  exact absurd (h1.symm.trans h2) (by decide)

/-- C7 (amended): an `invoke` payload `{function: f, id: v, param: p}`
received over the title side-channel drives the native handler with
param `p` (after the `'undefined'`-to-`None` mapping) and id `v`, and
the injected return script carries the escaped `str()` rendering of the
native return value; after script-literal evaluation the script side
observes exactly the native value for strings, while numbers, booleans
and `None` arrive as their Python textual renderings (`5`, `True`,
`False`, `None`) rather than as typed values. -/
theorem bridge_invoke_channel :
    (∀ (handler : PyVal → PyVal → PyVal → PrimVal) (s : BVState) (f idv : String)
        (p : PyVal) (title : String),
      json_loads title = some (.pydict [("type", .pystr "invoke"), ("function", .pystr f),
        ("id", .pystr idv), ("param", p)]) →
      on_title_change handler false title s =
        .ok { s with
          bridgeCalls := s.bridgeCalls ++
            [(.pystr f, if pyEqStr p "undefined" then .pynone else p, .pystr idv)],
          scriptsRun := s.scriptsRun ++
            [injectedReturnScript (handler (.pystr f)
              (if pyEqStr p "undefined" then .pynone else p) (.pystr idv))] }) ∧
    (∀ s : String, channelValue (.pstr s) = s) ∧
    (∀ i : Int, channelValue (.pint i) = toString i) ∧
    channelValue (.pbool true) = "True" ∧
    channelValue (.pbool false) = "False" ∧
    channelValue .pnone = "None" := by
  refine ⟨?_, fun s => channelValue_eq_pyStr (.pstr s),
    fun i => channelValue_eq_pyStr (.pint i), channelValue_eq_pyStr (.pbool true),
    channelValue_eq_pyStr (.pbool false), channelValue_eq_pyStr .pnone⟩
  intro handler s f idv p title hj
  simp only [on_title_change, hj]
  rfl

/-- C7 witness: a concrete `invoke` title for function `f`, id `x1`,
param `hello` drives the trivial handler with those arguments and
injects the escaped `None` rendering. -/
theorem bridge_invoke_channel_witness :
    on_title_change handler0 false invokeTitle baseState =
      .ok { baseState with
        bridgeCalls := [(.pystr "f", .pystr "hello", .pystr "x1")],
        scriptsRun := [injectedReturnScript .pnone] } :=
  bridge_invoke_channel.1 handler0 baseState "f" "x1" (.pystr "hello") invokeTitle rfl

/-- C8: a renderer-reported title that is not valid JSON makes
`on_title_change` return with the state unchanged — no exception
escapes, the in-flight JS-evaluation table and every semaphore are left
exactly as they were; the decode failure is only logged. -/
theorem title_decode_failure_harmless :
    ∀ (handler : PyVal → PyVal → PyVal → PrimVal) (ow : Bool) (title : String)
      (s : BVState),
      json_loads title = none → on_title_change handler ow title s = .ok s := by
  intro handler ow title s h
  simp only [on_title_change, h]

/-- C8 witness: the ordinary page title `My Page` fails the JSON parse
and leaves the concrete state untouched. -/
theorem title_decode_failure_harmless_witness :
    on_title_change handler0 true "My Page" pendingState = .ok pendingState :=
  title_decode_failure_harmless handler0 true "My Page" pendingState rfl

/-- C9 (code defect): the file-dialog result as delivered to the caller
through the one-shot pipe — a multi-selection open dialog with two
chosen files delivers the 2-tuple of paths in selection order, and a
cancelled dialog delivers `None` (never an empty tuple); but a save
dialog's single path is a Python string, and the module-level
`tuple(result)` turns it into the tuple of the path's characters, so for
the selected filename `ab` the caller receives `('a', 'b')` rather than
the selected path. -/
theorem create_file_dialog_eval :
    create_file_dialog .openDialog ⟨true, ["/a/x.txt", "/b/y.txt"], ""⟩ =
      some ["/a/x.txt", "/b/y.txt"] ∧
    create_file_dialog .openDialog ⟨false, [], ""⟩ = none ∧
    create_file_dialog .folderDialog ⟨false, [], ""⟩ = none ∧
    create_file_dialog .saveDialog ⟨true, [], "ab"⟩ = some ["a", "b"] ∧
    some ["a", "b"] ≠ some ["ab"] :=
  ⟨rfl, rfl, rfl, rfl, by decide⟩

/-- C10 counterexample: the title `"abc"` (a JSON string, hence valid
JSON and not an object) does not raise in `on_title_change`: Python's
membership test works on strings, finds no `type` substring and the
handler returns with the state unchanged — so the `TypeError` claim does
not hold of every valid-JSON non-object title. -/
theorem title_nonobject_counterexample :
    json_loads "\"abc\"" = some (.pystr "abc") ∧
    isDict (.pystr "abc") = false ∧
    on_title_change handler0 true "\"abc\"" baseState = .ok baseState :=
  ⟨rfl, rfl, rfl⟩

/-- C10 (amended): a renderer-reported title decoding to a
non-container JSON scalar — a number, a boolean or `null` — makes the
membership test `'type' not in js_data` raise `TypeError`, which the
handler's guards (they catch only JSON decode failures) let escape; so
the handler is not total over valid-JSON titles, though JSON strings and
arrays, which do support membership, do not raise there. -/
theorem title_scalar_json_type_error :
    ∀ (handler : PyVal → PyVal → PyVal → PrimVal) (ow : Bool) (title : String)
      (s : BVState) (v : PyVal),
      json_loads title = some v → isScalar v = true →
      on_title_change handler ow title s = .error .typeError := by
  intro handler ow title s v hj hs
  cases v with
  | pynone => simp [on_title_change, hj, pyContains]
  | pybool b => simp [on_title_change, hj, pyContains]
  | pyint i => simp [on_title_change, hj, pyContains]
  | pyfloat l => simp [on_title_change, hj, pyContains]
  | pystr t => simp [isScalar] at hs
  | pylist xs => simp [isScalar] at hs
  | pydict kvs => simp [isScalar] at hs

/-- C10 witness: the title `123` decodes to the JSON number 123 and the
handler raises `TypeError`. -/
theorem title_scalar_json_type_error_witness :
    on_title_change handler0 true "123" baseState = .error .typeError :=
  title_scalar_json_type_error handler0 true "123" baseState (.pyint 123) rfl rfl

end PywebviewGtk
